import Mathlib

/-!
Shallow embedding of the PJe web-scraping automation core
(repository WebScrapingPje), covering:

* the pickup-area matching loop (`DownloadService.aguardar_downloads` in
  `src/pje_automacao/services/download.py` and `aguardar_downloads` in
  `src/pjediagnostico.py`);
* the retrieval-submission classifier and diagnostics
  (`DownloadService.solicitar_download`);
* authentication and session persistence (`AuthService.login`,
  `AuthService.ensure_logged_in`, `SessionManager`);
* prioritized name matching (`_buscar_texto_similar` in
  `src/downloadProcessTaskEndpoint.py`);
* the batch report builder (`PJEAutomacao.processar_tarefa` in
  `src/pje_automacao/client.py`).

Network and file-system effects are modelled as explicit oracle
parameters (records of functions and optional values); the control flow
of each Python function is translated statement by statement.
-/

/-! ## Substring occurrence

Python `needle in haystack` on strings, used by the response
classifier and the name matcher. An empty needle occurs in every
haystack, as in Python. -/

/-- The first list is an initial segment of the second, on characters. -/
def listaComecaCom : List Char → List Char → Bool
  | [], _ => true
  | _ :: _, [] => false
  | a :: as, b :: bs => a = b && listaComecaCom as bs

/-- The first list occurs contiguously somewhere inside the second. -/
def ocorreLista (p : List Char) : List Char → Bool
  | [] => listaComecaCom p []
  | s@(_ :: resto) => listaComecaCom p s || ocorreLista p resto

/-- Python `p in s` on strings: `p` occurs as a contiguous substring of `s`. -/
def contemSub (p s : String) : Bool :=
  ocorreLista p.data s.data

/-- Python `str.lower`, modelled on the character list. Lean lowers
only ASCII letters; the phrases the code tests are already lowercase,
so nothing in the claims depends on lowering beyond ASCII. -/
def minusculas (s : String) : String :=
  ⟨s.data.map Char.toLower⟩

/-- A character Python `str.strip` removes by default (the common
whitespace kinds). -/
def ehEspaco (c : Char) : Bool :=
  c = ' ' || c = '\t' || c = '\n' || c = '\r'

/-- Python `str.strip`: drop whitespace from both ends. -/
def aparar (s : String) : String :=
  ⟨((s.data.dropWhile ehEspaco).reverse.dropWhile ehEspaco).reverse⟩

/-! ## Pickup items

`DownloadDisponivel` from `src/pje_automacao/models/entities.py`. The
Python `itens` field is a list of dicts from which only the
`numeroProcesso` value is ever read, so it is modelled as the list of
those values (the empty string standing for a missing or falsy value).
Equality is field-wise, as for a Python dataclass. -/

structure DownloadDisponivel where
  idUsuario : Nat
  nomeArquivo : String
  hashDownload : String
  dataExpiracao : Int
  situacao : String
  sistemaOrigem : String
  itens : List String
deriving DecidableEq, Repr

/-- Method `get_numeros_processos`: the distinct non-empty case numbers
covered by this pickup item (Python builds a set and lists it; the
model keeps first occurrences in order, which no claim depends on). -/
def DownloadDisponivel.get_numeros_processos (d : DownloadDisponivel) : List String :=
  (d.itens.filter (fun s => s ≠ "")).dedup

/-! ## The matching state of the pickup-area wait

Local variables `encontrados` (a Python set, modelled as a
duplicate-free list in insertion order, so the list itself is the claim
history) and `downloads` (the list returned to the caller). -/

structure MatchState where
  encontrados : List String
  downloads : List DownloadDisponivel
deriving DecidableEq, Repr

/-- The initial matching state: nothing found, nothing collected. -/
def MatchState.inicial : MatchState := ⟨[], []⟩

/-- Body of the innermost loop of `aguardar_downloads`: one observed
case number `proc` of pickup item `d` is matched against the awaited
list `processos`; on a match the number is claimed and the item is
collected unless already present. -/
def passoProcesso (processos : List String) (d : DownloadDisponivel)
    (st : MatchState) (proc : String) : MatchState :=
  if proc ∈ processos ∧ proc ∉ st.encontrados then
    { encontrados := st.encontrados ++ [proc],
      downloads := if d ∈ st.downloads then st.downloads else st.downloads ++ [d] }
  else st

/-- One pickup item observed: its case numbers are folded through
`passoProcesso` (the `for proc in download.get_numeros_processos()` loop). -/
def processarDownload (processos : List String) (st : MatchState)
    (d : DownloadDisponivel) : MatchState :=
  d.get_numeros_processos.foldl (passoProcesso processos d) st

/-- One poll cycle: every currently listed pickup item is observed
(the `for download in disponiveis` loop). -/
def processarDisponiveis (processos : List String) (st : MatchState)
    (disponiveis : List DownloadDisponivel) : MatchState :=
  disponiveis.foldl (processarDownload processos) st

/-- A whole sequence of poll cycles applied to the empty initial state. -/
def processarCiclos (processos : List String)
    (ciclos : List (List DownloadDisponivel)) : MatchState :=
  ciclos.foldl (processarDisponiveis processos) MatchState.inicial

/-! ## The pickup-area wait loops

Time is discrete: the poll at iteration k happens at absolute time
15 + k * intervalo (the code first sleeps 15 seconds, then sleeps
`intervalo` between listings); `decorrido` is the clock measured from
the end of the initial sleep, exactly the quantity the Python loop
guard `time.time() - inicio < tempo_maximo` compares. The stream of
portal listings is the oracle `listar : Nat → List DownloadDisponivel`
giving the pickup items visible at the k-th poll. Recursion is fueled;
the entry points hand the loop `tempo_maximo + 1` units, enough to
reach the guard whenever `intervalo ≥ 1` (proved below). -/

/-- Result of the simple wait loop of
`DownloadService.aguardar_downloads` (download.py). -/
structure ResultadoEspera where
  estado : MatchState
  decorrido : Nat
  listagens : List Nat
deriving Repr

/-- Loop of `DownloadService.aguardar_downloads`: list, match, return
when every awaited number was found, otherwise sleep and repeat until
the time budget is exhausted. `listagens` records the absolute time of
every poll performed. -/
def aguardarAux (listar : Nat → List DownloadDisponivel) (processos : List String)
    (tempo_maximo intervalo : Nat) :
    Nat → Nat → Nat → MatchState → List Nat → ResultadoEspera
  | 0, _, decorrido, st, ts => ⟨st, decorrido, ts⟩
  | fuel + 1, k, decorrido, st, ts =>
    if decorrido < tempo_maximo then
      if processos.length ≤ (processarDisponiveis processos st (listar k)).encontrados.length then
        ⟨processarDisponiveis processos st (listar k), decorrido, ts ++ [15 + decorrido]⟩
      else aguardarAux listar processos tempo_maximo intervalo
        fuel (k + 1) (decorrido + intervalo)
        (processarDisponiveis processos st (listar k)) (ts ++ [15 + decorrido])
    else ⟨st, decorrido, ts⟩

/-- Entry point of `DownloadService.aguardar_downloads`
(src/pje_automacao/services/download.py, lines 404-439). -/
def DownloadService.aguardar_downloads (listar : Nat → List DownloadDisponivel)
    (processos : List String) (tempo_maximo intervalo : Nat) : ResultadoEspera :=
  aguardarAux listar processos tempo_maximo intervalo
    (tempo_maximo + 1) 0 0 MatchState.inicial []

/-- Result of the diagnostic wait loop of `aguardar_downloads`
(pjediagnostico.py), which additionally tracks the stagnation clock
`tempo_sem_novos`. -/
structure ResultadoEsperaDiag where
  estado : MatchState
  decorrido : Nat
  semNovos : Nat
  listagens : List Nat
deriving Repr

/-- Update of the stagnation clock `tempo_sem_novos` after one cycle:
reset to zero when the cycle claimed a new case number, otherwise
bumped by the poll interval. -/
def relogioSemNovos (st st₂ : MatchState) (semNovos intervalo : Nat) : Nat :=
  if st.encontrados.length < st₂.encontrados.length then 0 else semNovos + intervalo

/-- Loop of `aguardar_downloads` in `src/pjediagnostico.py`
(lines 1107-1161): like the simple loop, but the stagnation clock is
reset whenever a new case number was claimed in the cycle and bumped
by `intervalo` otherwise, and the loop also returns early once that
clock reaches 90 seconds with at least one number already found. -/
def aguardarDiagAux (listar : Nat → List DownloadDisponivel) (processos : List String)
    (tempo_maximo intervalo : Nat) :
    Nat → Nat → Nat → Nat → MatchState → List Nat → ResultadoEsperaDiag
  | 0, _, decorrido, semNovos, st, ts => ⟨st, decorrido, semNovos, ts⟩
  | fuel + 1, k, decorrido, semNovos, st, ts =>
    if decorrido < tempo_maximo then
      if processos.length ≤ (processarDisponiveis processos st (listar k)).encontrados.length then
        ⟨processarDisponiveis processos st (listar k), decorrido,
          relogioSemNovos st (processarDisponiveis processos st (listar k)) semNovos intervalo,
          ts ++ [15 + decorrido]⟩
      else if 90 ≤ relogioSemNovos st (processarDisponiveis processos st (listar k)) semNovos intervalo ∧
          (processarDisponiveis processos st (listar k)).encontrados ≠ [] then
        ⟨processarDisponiveis processos st (listar k), decorrido,
          relogioSemNovos st (processarDisponiveis processos st (listar k)) semNovos intervalo,
          ts ++ [15 + decorrido]⟩
      else aguardarDiagAux listar processos tempo_maximo intervalo
        fuel (k + 1) (decorrido + intervalo)
        (relogioSemNovos st (processarDisponiveis processos st (listar k)) semNovos intervalo)
        (processarDisponiveis processos st (listar k)) (ts ++ [15 + decorrido])
    else ⟨st, decorrido, semNovos, ts⟩

/-- Entry point of `aguardar_downloads` in `src/pjediagnostico.py`. -/
def PjeDiagnostico.aguardar_downloads (listar : Nat → List DownloadDisponivel)
    (processos : List String) (tempo_maximo intervalo : Nat) : ResultadoEsperaDiag :=
  aguardarDiagAux listar processos tempo_maximo intervalo
    (tempo_maximo + 1) 0 0 0 MatchState.inicial []

/-! ## Classification of the retrieval-form response

From `DownloadService.solicitar_download`
(src/pje_automacao/services/download.py, lines 284-318). The code
lowercases the HTTP-200 response body and tests for the
direct-generation phrases and the pickup-area phrases; the model
lowers with `minusculas` (ASCII letters), which is all these phrase
tests need. -/

/-- The response says the artifact is being generated synchronously:
both the phrase about generation and the word aguarde occur. -/
def downloadDiretoResp (texto : String) : Bool :=
  contemSub "está sendo gerado" (minusculas texto) && contemSub "aguarde" (minusculas texto)

/-- The response says the artifact will appear in the pickup area. -/
def areaDownloadResp (texto : String) : Bool :=
  contemSub "será disponibilizado" (minusculas texto) || contemSub "área de download" (minusculas texto)

/-- The three outcomes the submitter distinguishes for an HTTP-200
response: direct (with the fetched file), deferred to the pickup area,
or rejected. -/
inductive TipoResposta where
  | direto (arquivo : String)
  | areaDownload
  | rejeitado
deriving DecidableEq, Repr

/-- Classification logic of `solicitar_download` after a 200 response:
`urlExtraida` is the result of `_extrair_url_download_direto` on the
body, `temDiretorio` whether a destination directory was supplied, and
`baixar` the oracle for `_baixar_arquivo_direto`. When the direct
branch cannot complete (no URL, no directory, or the transfer fails)
the code falls through to the pickup-area branch because its guard is
`area_download or download_direto`. -/
def classificarResposta (texto : String) (urlExtraida : Option String)
    (temDiretorio : Bool) (baixar : String → Option String) : TipoResposta :=
  if downloadDiretoResp texto then
    match urlExtraida, temDiretorio with
    | some url, true =>
      match baixar url with
      | some arquivo => .direto arquivo
      | none => .areaDownload
    | _, _ => .areaDownload
  else if areaDownloadResp texto then .areaDownload
  else .rejeitado

/-! ## Submission with diagnostics

`DownloadService.solicitar_download` (lines 167-325) and
`_adicionar_diagnostico` (lines 35-57). A diagnostic entry is modelled
by its case number, numeric id, stage name, success flag and message;
the wall-clock timestamp and the free-form detail dict of
`DiagnosticoDownload` play no role in any claim and are omitted. Every
network or parsing helper the method calls is an oracle field of
`EnvSolicitar`; the posting step may raise, which the code catches, so
it is an `Except`. -/

structure DiagnosticoDownload where
  numero_processo : String
  id_processo : Int
  etapa : String
  sucesso : Bool
  mensagem : String
deriving DecidableEq, Repr

/-- Oracle bundle for one run of `solicitar_download`: results of
`gerar_chave_acesso`, `abrir_processo`, `extrair_viewstate`,
`_identificar_botao_download`, the form post (exception message or
status code and body), `_extrair_url_download_direto`,
`_baixar_arquivo_direto`, and whether a destination directory was
passed. -/
structure EnvSolicitar where
  gerarChave : Option String
  abrirProcesso : String → Option String
  extrairViewstate : String → Option String
  identificarBotao : String → Option String
  postar : Except String (Nat × String)
  extrairUrl : String → Option String
  baixar : String → Option String
  temDiretorio : Bool

/-- Helper mirroring `_adicionar_diagnostico`. -/
def diag (numero : String) (idp : Int) (etapa : String) (sucesso : Bool)
    (mensagem : String) : DiagnosticoDownload :=
  ⟨numero, idp, etapa, sucesso, mensagem⟩

/-- Control flow of `DownloadService.solicitar_download`: each failing
step appends its failure diagnostic and returns `false`; the final
classification decides the outcome. Returns the success flag paired
with the diagnostics appended during the call, in order. -/
def DownloadService.solicitar_download (env : EnvSolicitar)
    (idp : Int) (numero : String) : Bool × List DiagnosticoDownload :=
  match env.gerarChave with
  | none => (false, [diag numero idp "chave_acesso" false "Falha ao gerar chave"])
  | some ca =>
    let d₁ := diag numero idp "chave_acesso" true "Chave obtida"
    match env.abrirProcesso ca with
    | none => (false, [d₁, diag numero idp "abrir_processo" false "Falha ao abrir"])
    | some html =>
      let d₂ := diag numero idp "abrir_processo" true "Pagina carregada"
      match env.extrairViewstate html with
      | none => (false, [d₁, d₂, diag numero idp "viewstate" false "ViewState nao encontrado"])
      | some _ =>
        match env.identificarBotao html with
        | none => (false, [d₁, d₂, diag numero idp "botao" false "Botao nao encontrado"])
        | some botao =>
          let d₃ := diag numero idp "botao" true ("Botao: " ++ botao)
          match env.postar with
          | .error e =>
            (false, [d₁, d₂, d₃, diag numero idp "solicitar" false ("Erro: " ++ e)])
          | .ok (status, texto) =>
            if status ≠ 200 then
              (false, [d₁, d₂, d₃, diag numero idp "solicitar" false "HTTP nao 200"])
            else
              match classificarResposta texto (env.extrairUrl texto) env.temDiretorio env.baixar with
              | .direto arquivo =>
                (true, [d₁, d₂, d₃,
                  diag numero idp "solicitar" true ("Download direto: " ++ arquivo)])
              | .areaDownload =>
                (true, [d₁, d₂, d₃,
                  diag numero idp "solicitar" true "Enviado para area de download"])
              | .rejeitado =>
                (false, [d₁, d₂, d₃, diag numero idp "solicitar" false "Resposta inesperada"])

/-! ## Session store

`SessionManager` from `src/pje_automacao/core/session.py`. The on-disk
state is abstracted: the cookies file is absent, structurally corrupt
(unpickling raises), or good; the info file is absent, corrupt (JSON
parse raises), or parsed with an optional numeric timestamp field
(`info.get("timestamp", 0)` defaults a missing key to 0). Timestamps
are rationals standing for the Python floats returned by
`time.time()`. Every `try/except` of the Python code becomes a match
on these shapes returning `false`, so the operations are total. -/

inductive InfoArquivo where
  | ausente
  | corrompido
  | valido (timestamp : Option ℚ)
deriving DecidableEq

/-- Abstract content of the `.session` directory plus the outcome of
the two durable writes `save` performs. -/
structure ArquivosSessao where
  cookies : Option (Except Unit Unit)
  info : InfoArquivo
  escritaCookiesOk : Bool
  escritaInfoOk : Bool

/-- `SessionManager.save`: dumps cookies then the info JSON; any raise
in either write yields `False`. -/
def SessionManager.save (a : ArquivosSessao) : Bool :=
  a.escritaCookiesOk && a.escritaInfoOk

/-- `SessionManager.load`: `False` when the cookies file is missing or
unpickling raises, `True` when the cookies were read and installed. -/
def SessionManager.load (a : ArquivosSessao) : Bool :=
  match a.cookies with
  | none => false
  | some (.error _) => false
  | some (.ok _) => true

/-- `SessionManager.is_valid` (lines 55-69): `False` when the info file
is missing or unreadable, otherwise compares the age in hours against
`max_age_hours` strictly. -/
def SessionManager.is_valid (a : ArquivosSessao) (agora : ℚ) (max_age_hours : ℚ) : Bool :=
  match a.info with
  | .ausente => false
  | .corrompido => false
  | .valido ts => decide ((agora - ts.getD 0) / 3600 < max_age_hours)

/-! ## Authentication

`AuthService` from `src/pje_automacao/core/auth.py`. Network calls are
oracles; the trace of network events each path performs is returned
alongside the boolean outcome, so that the handshake-call count of a
run is a provable quantity. Only the three calls the claims speak
about are traced: the authenticated probe `currentUser`, the login
page fetch, and the credential post. -/

inductive EventoAuth where
  | probe
  | fetchLoginPage
  | postCredenciais
deriving DecidableEq, Repr

/-- Oracle bundle for `AuthService`: outcome of the probe on the
current in-memory cookies, of `session_manager.is_valid` and `load`,
of the probe after restoring saved cookies, of the SSO redirect and
action-URL extraction during the handshake, and of the probe after
posting credentials. -/
structure EnvAuth where
  probeAtual : Bool
  sessaoValida : Bool
  loadOk : Bool
  probeRestaurada : Bool
  redirecionadoSSO : Bool
  actionEncontrada : Bool
  probePosLogin : Bool

/-- `AuthService.restaurar_sessao` (lines 77-90): requires a valid
saved session, loads it, then probes. The two file reads are local,
so only the probe is a network event. -/
def AuthService.restaurar_sessao (env : EnvAuth) : Bool × List EventoAuth :=
  if !env.sessaoValida then (false, [])
  else if !env.loadOk then (false, [])
  else (env.probeRestaurada, [.probe])

/-- `AuthService.login` (lines 92-177). The credential check comes
first: with a missing username or password the method returns `False`
before touching the session. Without `force` it probes the live
session, then tries the saved one, and only then performs the
handshake: fetch the login page, require the SSO redirect and the
action URL, post credentials, and probe again. -/
def AuthService.login (env : EnvAuth) (username password : String)
    (force : Bool) : Bool × List EventoAuth :=
  if username = "" ∨ password = "" then (false, [])
  else
    let tentativa : Option Bool × List EventoAuth :=
      if force then (none, [])
      else if env.probeAtual then (some true, [.probe])
      else
        let r := AuthService.restaurar_sessao env
        (if r.1 then some true else none, .probe :: r.2)
    match tentativa with
    | (some b, evs) => (b, evs)
    | (none, evs) =>
      let evs := evs ++ [.fetchLoginPage]
      if !env.redirecionadoSSO then (false, evs)
      else if !env.actionEncontrada then (false, evs)
      else (env.probePosLogin, evs ++ [.postCredenciais, .probe])

/-- `AuthService.ensure_logged_in` (lines 179-183): probe, then fall
back to `login()` with the environment credentials. -/
def AuthService.ensure_logged_in (env : EnvAuth) (username password : String) :
    Bool × List EventoAuth :=
  if env.probeAtual then (true, [.probe])
  else
    let r := AuthService.login env username password false
    (r.1, .probe :: r.2)

/-- An authentication environment with no live in-memory session but a
valid persisted one that loads and passes the probe; the handshake
oracles all fail, so any handshake attempt would be visible. -/
def envSessaoSalva : EnvAuth :=
  ⟨false, true, true, true, false, false, false⟩

/-! ## Prioritized name matching

`_buscar_texto_similar` from `src/downloadProcessTaskEndpoint.py`
(lines 396-471), the matcher behind profile (operating context)
selection by name in that script. The `SequenceMatcher` ratio of
`_calcular_similaridade` and the accent-stripping normalization of
`_normalizar_texto` are oracles of the `Matcher` record; lowercasing
and stripping are `minusculas` and `aparar`. -/

structure Matcher where
  sim : String → String → ℚ
  norm : String → String

/-- Tier 1 test: exact equality, case-insensitive, with or without
accent normalization. -/
def exatoB (m : Matcher) (busca item : String) : Bool :=
  (aparar (minusculas item) == aparar (minusculas busca)) || (m.norm item == m.norm busca)

/-- Tier 2 test: the query occurs inside the candidate. -/
def contemB (m : Matcher) (busca item : String) : Bool :=
  contemSub (aparar (minusculas busca)) (aparar (minusculas item)) ||
    contemSub (m.norm busca) (m.norm item)

/-- Tier 3 test: the candidate occurs inside the query. -/
def contemInvB (m : Matcher) (busca item : String) : Bool :=
  contemSub (aparar (minusculas item)) (aparar (minusculas busca)) ||
    contemSub (m.norm item) (m.norm busca)

/-- Length gap between lowered-stripped candidate and query, the
primary sort key of the containment tiers. -/
def difTam (busca item : String) : Nat :=
  (((aparar (minusculas item)).length : Int) - ((aparar (minusculas busca)).length : Int)).natAbs

/-- One comparison of the stable sort by (gap ascending, similarity
descending): a later candidate replaces the held one only when
strictly better. -/
def passoMelhorContem (acc : Option (Nat × Nat × ℚ)) (c : Nat × Nat × ℚ) :
    Option (Nat × Nat × ℚ) :=
  match acc with
  | none => some c
  | some b =>
    if c.2.1 < b.2.1 ∨ (c.2.1 = b.2.1 ∧ b.2.2 < c.2.2) then some c else some b

/-- First element of a stable sort by (gap ascending, similarity
descending): the fold keeps the earliest candidate among those with
minimal gap and, within a gap, maximal similarity. -/
def melhorContem (cands : List (Nat × Nat × ℚ)) : Option Nat :=
  (cands.foldl passoMelhorContem none).map Prod.fst

/-- One comparison of the stable sort by similarity descending. -/
def passoMelhorSimilar (acc : Option (Nat × ℚ)) (c : Nat × ℚ) : Option (Nat × ℚ) :=
  match acc with
  | none => some c
  | some b => if b.2 < c.2 then some c else some b

/-- First element of a stable sort by similarity descending: the
earliest candidate of maximal score. -/
def melhorSimilar (cands : List (Nat × ℚ)) : Option Nat :=
  (cands.foldl passoMelhorSimilar none).map Prod.fst

/-- `_buscar_texto_similar`: exact match first, then query-in-candidate
containment, then candidate-in-query containment, then similarity at
or above the threshold; each tier picks by its own ordering and the
first tier with any candidate wins. -/
def buscar_texto_similar (m : Matcher) (busca : String) (lista : List String)
    (threshold : ℚ) : Option Nat :=
  match lista.enum.find? (fun par => exatoB m busca par.2) with
  | some par => some par.1
  | none =>
    let contem := (lista.enum.filter (fun par => contemB m busca par.2)).map
      (fun par => (par.1, difTam busca par.2, m.sim busca par.2))
    match melhorContem contem with
    | some i => some i
    | none =>
      let inverso := (lista.enum.filter (fun par => contemInvB m busca par.2)).map
        (fun par => (par.1, difTam busca par.2, m.sim busca par.2))
      match melhorContem inverso with
      | some i => some i
      | none =>
        let porSimilaridade := (lista.enum.filter
            (fun par => threshold ≤ m.sim busca par.2)).map
          (fun par => (par.1, m.sim busca par.2))
        melhorSimilar porSimilaridade

/-- Matcher instantiated at the values the real
`_calcular_similaridade` takes on every pair the theorems below probe
it at: the SequenceMatcher ratio of two equal strings is 1, and the
ratio of the one unequal pair probed, a against abcdef, is
2 * 1 / (1 + 6) = 2/7 (one matching character over seven characters in
total). Normalization is plain lowering plus stripping. -/
def matcherExemplo : Matcher :=
  ⟨fun b i => if b = i then 1 else 2 / 7, fun s => aparar (minusculas s)⟩

/-- `ProfileService.selecionar_por_nome`
(src/pje_automacao/services/profile.py, lines 120-133), on the
`nome_completo` strings of the listed profiles: the first profile
whose lowered full name contains the lowered query wins; there is no
exact-match tier and no similarity fallback. Returns the position of
the selected profile. -/
def ProfileService.selecionar_por_nome (perfis : List String) (nome : String) :
    Option Nat :=
  (perfis.enum.find? (fun par => contemSub (minusculas nome) (minusculas par.2))).map
    Prod.fst

/-! ## Batch processing report

`PJEAutomacao.processar_tarefa` from `src/pje_automacao/client.py`
(lines 102-237), starting from the resolved list of case numbers of
the task. Submission outcome per case number, the pickup-area wait
result, and the per-item fetch are oracles. -/

inductive ResultadoSolicitacao where
  | falha
  | direto (arquivo : String)
  | area
deriving DecidableEq, Repr

/-- Whether a submission outcome is the failure case. -/
def ResultadoSolicitacao.ehFalha : ResultadoSolicitacao → Bool
  | .falha => true
  | _ => false

/-- Oracle bundle for one batch run: per-number submission outcome
(collapsing `solicitar_download` plus the tipo_download detail),
matched pickup items returned by `aguardar_downloads` for the deferred
numbers, and the result of `baixar_arquivo` per item. -/
structure EnvTarefa where
  solicitar : String → ResultadoSolicitacao
  aguardar : List String → List DownloadDisponivel
  baixar : DownloadDisponivel → Option String

/-- Accumulator of the submission loop of `processar_tarefa`. -/
structure EstadoLote where
  sucesso : Nat
  falha : Nat
  diretos : Nat
  arquivos : List String
  paraArea : List String
  falhas : List String
deriving Repr

/-- One iteration of the `for proc in processos` loop: a failure goes
to the failure list, a completed direct download records its file, any
other success queues the number for the pickup area. -/
def passoLote (env : EnvTarefa) (st : EstadoLote) (p : String) : EstadoLote :=
  match env.solicitar p with
  | .falha => { st with falha := st.falha + 1, falhas := st.falhas ++ [p] }
  | .direto arquivo =>
    { st with
      sucesso := st.sucesso + 1
      diretos := st.diretos + 1
      arquivos := st.arquivos ++ [arquivo] }
  | .area => { st with sucesso := st.sucesso + 1, paraArea := st.paraArea ++ [p] }

/-- The final report dictionary, restricted to its stable fields. -/
structure Relatorio where
  processos_encontrados : Nat
  solicitacoes_sucesso : Nat
  solicitacoes_falha : Nat
  downloads_diretos : Nat
  downloads_concluidos : Nat
  arquivos : List String
  falhas : List String
deriving Repr

/-- `processar_tarefa` on a resolved list of case numbers: run the
submission loop, then, when asked to and something was deferred, wait
for the pickup area and fetch every matched item, counting the files
that arrived. -/
def PJEAutomacao.processar_tarefa (env : EnvTarefa) (processos : List String)
    (aguardarFlag : Bool) : Relatorio :=
  let st := processos.foldl (passoLote env) ⟨0, 0, 0, [], [], []⟩
  let arquivos :=
    if aguardarFlag ∧ st.paraArea ≠ [] then
      st.arquivos ++ (env.aguardar st.paraArea).filterMap env.baixar
    else st.arquivos
  ⟨processos.length, st.sucesso, st.falha, st.diretos,
    arquivos.length, arquivos, st.falhas⟩

/-- A case number is mentioned in the report when it sits in the
failure list or occurs inside a recorded file path. -/
def apareceNoRelatorio (rel : Relatorio) (p : String) : Bool :=
  rel.falhas.contains p || rel.arquivos.any (fun a => contemSub p a)

/-- Environment of the counterexample to the report-enumeration claim:
every submission is deferred and the pickup area never produces a
match. -/
def envTarefaSemMatch : EnvTarefa :=
  ⟨fun _ => .area, fun _ => [], fun _ => none⟩

/-! ## Concrete instances used by witnesses and counterexamples -/

/-- A pickup item bundling two case numbers, the fan-in scenario. -/
def itemAB : DownloadDisponivel :=
  ⟨7, "lote.zip", "hash-ab", 0, "DISPONIVEL", "PRIMEIRA_INSTANCIA", ["A-1", "B-2"]⟩

/-- A fetch oracle that always produces a file. -/
def baixaSempre : String → Option String := fun _ => some "arquivo.pdf"

/-- A fetch oracle that never produces a file. -/
def baixaNunca : String → Option String := fun _ => none

/-- A poll stream in which the pickup area stays empty. -/
def listarVazio : Nat → List DownloadDisponivel := fun _ => []

/-- Submission oracle in which every step succeeds and the portal
answers 200 with the pickup-area phrase. -/
def envSolicitarOk : EnvSolicitar :=
  ⟨some "ca", fun _ => some "html", fun _ => some "vs",
    fun _ => some "navbar:j_id280", .ok (200, "O arquivo será disponibilizado"),
    fun _ => none, fun _ => none, false⟩

/-- Variant: the access-key endpoint fails. -/
def envSemChave : EnvSolicitar := { envSolicitarOk with gerarChave := none }

/-- Variant: the case page does not open. -/
def envSemPagina : EnvSolicitar := { envSolicitarOk with abrirProcesso := fun _ => none }

/-- Variant: the page has no ViewState. -/
def envSemViewstate : EnvSolicitar := { envSolicitarOk with extrairViewstate := fun _ => none }

/-- Variant: the download button is missing. -/
def envSemBotao : EnvSolicitar := { envSolicitarOk with identificarBotao := fun _ => none }

/-- Variant: the form post raises. -/
def envPostErro : EnvSolicitar := { envSolicitarOk with postar := .error "timeout" }

/-- Variant: the form post answers HTTP 500. -/
def envPost500 : EnvSolicitar := { envSolicitarOk with postar := .ok (500, "erro interno") }

/-- Session files in good shape, with both writes succeeding. -/
def arquivosBons : ArquivosSessao := ⟨some (.ok ()), .valido (some 0), true, true⟩

/-- Session directory with nothing saved and failing writes. -/
def arquivosAusentes : ArquivosSessao := ⟨none, .ausente, false, false⟩

/-- Session directory whose files exist but cannot be parsed. -/
def arquivosCorrompidos : ArquivosSessao := ⟨some (.error ()), .corrompido, true, false⟩

/-! ## Soundness predicate of the collected downloads

Every item the wait loop has collected claimed at least one awaited
case number. -/

/-- All collected items are justified by a matched awaited number. -/
def DownloadsJustificados (processos : List String) (st : MatchState) : Prop :=
  ∀ x ∈ st.downloads,
    ∃ p, p ∈ x.get_numeros_processos ∧ p ∈ st.encontrados ∧ p ∈ processos

/-- Joint duplicate-freeness invariant of the matching state. -/
def InvSemDuplicatas (st : MatchState) : Prop :=
  st.encontrados.Nodup ∧ st.downloads.Nodup

/-! ## Invariants of the matching fold -/

/-- A predicate preserved by every step of a left fold is preserved by
the whole fold. -/
theorem foldlPreserva {α β : Type _} (P : β → Prop) (f : β → α → β)
    (h : ∀ b a, P b → P (f b a)) : ∀ (l : List α) (b : β), P b → P (l.foldl f b) := by
  intro l
  induction l with
  | nil => intro b hb; exact hb
  | cons a l ih => intro b hb; exact ih _ (h b a hb)

/-- The matched set only grows across one matching step. -/
theorem passoMonoEncontrados (processos : List String) (d : DownloadDisponivel)
    (st : MatchState) (proc : String) {p : String} (hp : p ∈ st.encontrados) :
    p ∈ (passoProcesso processos d st proc).encontrados := by
  unfold passoProcesso
  split
  · simp only [List.mem_append]; exact Or.inl hp
  · exact hp

/-- The collected item list only grows across one matching step. -/
theorem passoMonoDownloads (processos : List String) (d : DownloadDisponivel)
    (st : MatchState) (proc : String) {x : DownloadDisponivel} (hx : x ∈ st.downloads) :
    x ∈ (passoProcesso processos d st proc).downloads := by
  unfold passoProcesso
  split
  · simp only []
    split
    · exact hx
    · simp only [List.mem_append]; exact Or.inl hx
  · exact hx

/-- Matched-set membership survives the fold over the case numbers of
one pickup item. -/
theorem foldPassoMonoEncontrados (processos : List String) (d : DownloadDisponivel)
    (l : List String) (st : MatchState) {p : String} (hp : p ∈ st.encontrados) :
    p ∈ (l.foldl (passoProcesso processos d) st).encontrados :=
  foldlPreserva (fun s => p ∈ s.encontrados) _
    (fun b a hb => passoMonoEncontrados processos d b a hb) l st hp

/-- Collected-item membership survives the fold over the case numbers
of one pickup item. -/
theorem foldPassoMonoDownloads (processos : List String) (d : DownloadDisponivel)
    (l : List String) (st : MatchState) {x : DownloadDisponivel} (hx : x ∈ st.downloads) :
    x ∈ (l.foldl (passoProcesso processos d) st).downloads :=
  foldlPreserva (fun s => x ∈ s.downloads) _
    (fun b a hb => passoMonoDownloads processos d b a hb) l st hx

/-- Every awaited case number observed in the fold ends up matched. -/
theorem foldPassoCompleto (processos : List String) (d : DownloadDisponivel) :
    ∀ (l : List String) (st : MatchState) (p : String),
      p ∈ l → p ∈ processos →
      p ∈ (l.foldl (passoProcesso processos d) st).encontrados := by
  intro l
  induction l with
  | nil => intro st p hpl _; cases hpl
  | cons q l ih =>
    intro st p hpl hpp
    rcases List.mem_cons.mp hpl with rfl | h
    · rw [List.foldl_cons]
      apply foldPassoMonoEncontrados
      by_cases hg : p ∈ processos ∧ p ∉ st.encontrados
      · simp [passoProcesso, hg]
      · have hin : p ∈ st.encontrados := by
          rcases not_and_or.mp hg with h1 | h2
          · exact absurd hpp h1
          · exact not_not.mp h2
        exact passoMonoEncontrados processos d st p hin
    · rw [List.foldl_cons]
      exact ih _ p h hpp

/-- When the fold matched a number that was not matched before, the
pickup item that produced it was collected. -/
theorem foldPassoColeta (processos : List String) (d : DownloadDisponivel) :
    ∀ (l : List String) (st : MatchState) (p : String),
      p ∈ (l.foldl (passoProcesso processos d) st).encontrados →
      p ∉ st.encontrados →
      d ∈ (l.foldl (passoProcesso processos d) st).downloads := by
  intro l
  induction l with
  | nil => intro st p h hn; exact absurd h hn
  | cons q l ih =>
    intro st p h hn
    rw [List.foldl_cons] at h ⊢
    by_cases hq : p ∈ (passoProcesso processos d st q).encontrados
    · have hd : d ∈ (passoProcesso processos d st q).downloads := by
        by_cases hg : q ∈ processos ∧ q ∉ st.encontrados
        · simp only [passoProcesso, if_pos hg]
          split
          · assumption
          · simp
        · simp only [passoProcesso, if_neg hg] at hq
          exact absurd hq hn
      exact foldPassoMonoDownloads processos d l _ hd
    · exact ih _ p h hq

/-- One matching step keeps both lists duplicate-free: a number is
claimed only if not yet matched, an item collected only if not yet
collected. -/
theorem passoInv (processos : List String) (d : DownloadDisponivel)
    (st : MatchState) (proc : String) (h : InvSemDuplicatas st) :
    InvSemDuplicatas (passoProcesso processos d st proc) := by
  obtain ⟨h1, h2⟩ := h
  unfold InvSemDuplicatas passoProcesso
  split
  · rename_i hg
    constructor
    · simp [List.nodup_append, h1, hg.2]
    · simp only []
      split
      · exact h2
      · rename_i hd
        simp [List.nodup_append, h2, hd]
  · exact ⟨h1, h2⟩

/-- Observing one pickup item preserves duplicate-freeness. -/
theorem processarDownloadInv (processos : List String) (st : MatchState)
    (d : DownloadDisponivel) (h : InvSemDuplicatas st) :
    InvSemDuplicatas (processarDownload processos st d) :=
  foldlPreserva InvSemDuplicatas _ (fun b a hb => passoInv processos d b a hb) _ st h

/-- One poll cycle preserves duplicate-freeness. -/
theorem processarDisponiveisInv (processos : List String) (st : MatchState)
    (ds : List DownloadDisponivel) (h : InvSemDuplicatas st) :
    InvSemDuplicatas (processarDisponiveis processos st ds) :=
  foldlPreserva InvSemDuplicatas _ (fun b a hb => processarDownloadInv processos b a hb) _ st h

/-- A state predicate preserved by poll cycles is preserved by the
simple wait loop. -/
theorem aguardarAuxPreserva (listar : Nat → List DownloadDisponivel)
    (processos : List String) (tempo_maximo intervalo : Nat)
    (P : MatchState → Prop)
    (hP : ∀ st ds, P st → P (processarDisponiveis processos st ds)) :
    ∀ (fuel k decorrido : Nat) (st : MatchState) (ts : List Nat), P st →
      P (aguardarAux listar processos tempo_maximo intervalo fuel k decorrido st ts).estado := by
  intro fuel
  induction fuel with
  | zero => intro k dec st ts h; exact h
  | succ fuel ih =>
    intro k dec st ts h
    unfold aguardarAux
    split
    · split
      · exact hP st (listar k) h
      · exact ih _ _ _ _ (hP st (listar k) h)
    · exact h

/-- A state predicate preserved by poll cycles is preserved by the
diagnostic wait loop. -/
theorem aguardarDiagAuxPreserva (listar : Nat → List DownloadDisponivel)
    (processos : List String) (tempo_maximo intervalo : Nat)
    (P : MatchState → Prop)
    (hP : ∀ st ds, P st → P (processarDisponiveis processos st ds)) :
    ∀ (fuel k decorrido semNovos : Nat) (st : MatchState) (ts : List Nat), P st →
      P (aguardarDiagAux listar processos tempo_maximo intervalo
          fuel k decorrido semNovos st ts).estado := by
  intro fuel
  induction fuel with
  | zero => intro k dec sn st ts h; exact h
  | succ fuel ih =>
    intro k dec sn st ts h
    unfold aguardarDiagAux
    split
    · split
      · exact hP st (listar k) h
      · split
        · exact hP st (listar k) h
        · exact ih _ _ _ _ _ (hP st (listar k) h)
    · exact h

/-- One matching step keeps every collected item justified, provided
the observed number really belongs to the item being observed. -/
theorem passoJustifica (processos : List String) (d : DownloadDisponivel)
    (st : MatchState) (proc : String) (hproc : proc ∈ d.get_numeros_processos)
    (h : DownloadsJustificados processos st) :
    DownloadsJustificados processos (passoProcesso processos d st proc) := by
  unfold DownloadsJustificados passoProcesso
  split
  · rename_i hg
    intro x hx
    simp only [] at hx
    by_cases hxold : x ∈ st.downloads
    · obtain ⟨p, hp1, hp2, hp3⟩ := h x hxold
      exact ⟨p, hp1, by simp [List.mem_append, hp2], hp3⟩
    · have hxd : x = d := by
        by_cases hdm : d ∈ st.downloads
        · rw [if_pos hdm] at hx
          exact absurd hx hxold
        · rw [if_neg hdm] at hx
          rcases List.mem_append.mp hx with h1 | h2
          · exact absurd h1 hxold
          · simpa using h2
      subst hxd
      exact ⟨proc, hproc, by simp, hg.1⟩
  · exact h

/-- Folding the case numbers of one item keeps collected items
justified. -/
theorem foldJustifica (processos : List String) (d : DownloadDisponivel) :
    ∀ (l : List String), (∀ q ∈ l, q ∈ d.get_numeros_processos) →
      ∀ (st : MatchState), DownloadsJustificados processos st →
      DownloadsJustificados processos (l.foldl (passoProcesso processos d) st) := by
  intro l
  induction l with
  | nil => intro _ st h; exact h
  | cons q l ih =>
    intro hl st h
    rw [List.foldl_cons]
    exact ih (fun r hr => hl r (List.mem_cons_of_mem q hr)) _
      (passoJustifica processos d st q (hl q (List.mem_cons_self q l)) h)

/-- Observing one pickup item keeps collected items justified. -/
theorem processarDownloadJustifica (processos : List String) (st : MatchState)
    (d : DownloadDisponivel) (h : DownloadsJustificados processos st) :
    DownloadsJustificados processos (processarDownload processos st d) :=
  foldJustifica processos d d.get_numeros_processos (fun _ hq => hq) st h

/-- One poll cycle keeps collected items justified. -/
theorem processarDisponiveisJustifica (processos : List String) (st : MatchState)
    (ds : List DownloadDisponivel) (h : DownloadsJustificados processos st) :
    DownloadsJustificados processos (processarDisponiveis processos st ds) :=
  foldlPreserva (DownloadsJustificados processos) _
    (fun b a hb => processarDownloadJustifica processos b a hb) _ st h

/-- With a positive interval and enough fuel, the simple wait loop
returns only because everything was found or because the time budget
ran out. -/
theorem aguardarAuxSaida (listar : Nat → List DownloadDisponivel)
    (processos : List String) (tempo_maximo intervalo : Nat)
    (hint : 1 ≤ intervalo) :
    ∀ (fuel k decorrido : Nat) (st : MatchState) (ts : List Nat),
      tempo_maximo - decorrido < fuel →
      (processos.length ≤ (aguardarAux listar processos tempo_maximo intervalo
          fuel k decorrido st ts).estado.encontrados.length ∨
        tempo_maximo ≤ (aguardarAux listar processos tempo_maximo intervalo
          fuel k decorrido st ts).decorrido) := by
  intro fuel
  induction fuel with
  | zero => intro k dec st ts h; omega
  | succ fuel ih =>
    intro k dec st ts h
    unfold aguardarAux
    split
    · rename_i hdec
      split
      · rename_i hall; exact Or.inl hall
      · exact ih (k + 1) (dec + intervalo) _ _ (by omega)
    · rename_i hdec
      exact Or.inr (show tempo_maximo ≤ dec by omega)

/-- With a positive interval and enough fuel, the diagnostic wait loop
returns only because everything was found, the time budget ran out, or
the stagnation clock fired with something already found. -/
theorem aguardarDiagAuxSaida (listar : Nat → List DownloadDisponivel)
    (processos : List String) (tempo_maximo intervalo : Nat)
    (hint : 1 ≤ intervalo) :
    ∀ (fuel k decorrido semNovos : Nat) (st : MatchState) (ts : List Nat),
      tempo_maximo - decorrido < fuel →
      (processos.length ≤ (aguardarDiagAux listar processos tempo_maximo intervalo
          fuel k decorrido semNovos st ts).estado.encontrados.length ∨
        tempo_maximo ≤ (aguardarDiagAux listar processos tempo_maximo intervalo
          fuel k decorrido semNovos st ts).decorrido ∨
        (90 ≤ (aguardarDiagAux listar processos tempo_maximo intervalo
            fuel k decorrido semNovos st ts).semNovos ∧
          (aguardarDiagAux listar processos tempo_maximo intervalo
            fuel k decorrido semNovos st ts).estado.encontrados ≠ [])) := by
  intro fuel
  induction fuel with
  | zero => intro k dec sn st ts h; omega
  | succ fuel ih =>
    intro k dec sn st ts h
    unfold aguardarDiagAux
    split
    · rename_i hdec
      split
      · rename_i hall; exact Or.inl hall
      · split
        · rename_i hstag; exact Or.inr (Or.inr hstag)
        · exact ih (k + 1) (dec + intervalo) _ _ _ (by omega)
    · rename_i hdec
      exact Or.inr (Or.inl (show tempo_maximo ≤ dec by omega))

/-- Every poll of the simple wait loop happens at or after the initial
15-second sleep. -/
theorem aguardarAuxListagens (listar : Nat → List DownloadDisponivel)
    (processos : List String) (tempo_maximo intervalo : Nat) :
    ∀ (fuel k decorrido : Nat) (st : MatchState) (ts : List Nat),
      (∀ t ∈ ts, 15 ≤ t) →
      ∀ t ∈ (aguardarAux listar processos tempo_maximo intervalo
        fuel k decorrido st ts).listagens, 15 ≤ t := by
  intro fuel
  induction fuel with
  | zero => intro k dec st ts hts; exact hts
  | succ fuel ih =>
    intro k dec st ts hts
    unfold aguardarAux
    split
    · split
      · intro t ht
        rcases List.mem_append.mp ht with h1 | h2
        · exact hts t h1
        · simp at h2; omega
      · refine ih (k + 1) (dec + intervalo) _ _ ?_
        intro t ht
        rcases List.mem_append.mp ht with h1 | h2
        · exact hts t h1
        · simp at h2; omega
    · exact hts

/-- Every poll of the diagnostic wait loop happens at or after the
initial 15-second sleep. -/
theorem aguardarDiagAuxListagens (listar : Nat → List DownloadDisponivel)
    (processos : List String) (tempo_maximo intervalo : Nat) :
    ∀ (fuel k decorrido semNovos : Nat) (st : MatchState) (ts : List Nat),
      (∀ t ∈ ts, 15 ≤ t) →
      ∀ t ∈ (aguardarDiagAux listar processos tempo_maximo intervalo
        fuel k decorrido semNovos st ts).listagens, 15 ≤ t := by
  intro fuel
  induction fuel with
  | zero => intro k dec sn st ts hts; exact hts
  | succ fuel ih =>
    intro k dec sn st ts hts
    unfold aguardarDiagAux
    split
    · split
      · intro t ht
        rcases List.mem_append.mp ht with h1 | h2
        · exact hts t h1
        · simp at h2; omega
      · split
        · intro t ht
          rcases List.mem_append.mp ht with h1 | h2
          · exact hts t h1
          · simp at h2; omega
        · refine ih (k + 1) (dec + intervalo) _ _ _ ?_
          intro t ht
          rcases List.mem_append.mp ht with h1 | h2
          · exact hts t h1
          · simp at h2; omega
    · exact hts

/-! ## Claim theorems -/

/-- C1: for every awaited list of case identifiers and every sequence
of poll cycles — in particular across both wait-loop implementations,
whatever the portal lists at each poll — a case identifier is claimed
at most once (the claim history `encontrados` carries no duplicate)
and a pickup item enters the returned matches at most once (the
`downloads` list carries no duplicate), even when the same pickup item
is observed in many cycles. -/
theorem C1_reivindicacao_unica (processos : List String)
    (ciclos : List (List DownloadDisponivel))
    (listar : Nat → List DownloadDisponivel) (tempo_maximo intervalo : Nat) :
    (processarCiclos processos ciclos).encontrados.Nodup ∧
    (processarCiclos processos ciclos).downloads.Nodup ∧
    (DownloadService.aguardar_downloads listar processos
      tempo_maximo intervalo).estado.encontrados.Nodup ∧
    (DownloadService.aguardar_downloads listar processos
      tempo_maximo intervalo).estado.downloads.Nodup ∧
    (PjeDiagnostico.aguardar_downloads listar processos
      tempo_maximo intervalo).estado.encontrados.Nodup ∧
    (PjeDiagnostico.aguardar_downloads listar processos
      tempo_maximo intervalo).estado.downloads.Nodup := by
  have h0 : InvSemDuplicatas MatchState.inicial := ⟨List.nodup_nil, List.nodup_nil⟩
  have h1 : InvSemDuplicatas (processarCiclos processos ciclos) :=
    foldlPreserva InvSemDuplicatas _
      (fun b a hb => processarDisponiveisInv processos b a hb) ciclos MatchState.inicial h0
  have h2 : InvSemDuplicatas (DownloadService.aguardar_downloads listar processos
      tempo_maximo intervalo).estado :=
    aguardarAuxPreserva listar processos tempo_maximo intervalo InvSemDuplicatas
      (fun st ds hst => processarDisponiveisInv processos st ds hst) _ _ _ _ _ h0
  have h3 : InvSemDuplicatas (PjeDiagnostico.aguardar_downloads listar processos
      tempo_maximo intervalo).estado :=
    aguardarDiagAuxPreserva listar processos tempo_maximo intervalo InvSemDuplicatas
      (fun st ds hst => processarDisponiveisInv processos st ds hst) _ _ _ _ _ _ h0
  exact ⟨h1.1, h1.2, h2.1, h2.2, h3.1, h3.2⟩

/-- C5: fan-in — a pickup item covering the two distinct awaited case
identifiers A and B claims both in the single poll cycle that observes
it, and the item itself appears exactly once in the resulting match
list. -/
theorem C5_fan_in (d : DownloadDisponivel) (A B : String) (processos : List String)
    (hAB : A ≠ B)
    (hA : A ∈ d.get_numeros_processos) (hB : B ∈ d.get_numeros_processos)
    (hA2 : A ∈ processos) (hB2 : B ∈ processos) :
    A ∈ (processarDisponiveis processos MatchState.inicial [d]).encontrados ∧
    B ∈ (processarDisponiveis processos MatchState.inicial [d]).encontrados ∧
    (processarDisponiveis processos MatchState.inicial [d]).downloads.count d = 1 := by
  have hred : processarDisponiveis processos MatchState.inicial [d]
      = d.get_numeros_processos.foldl (passoProcesso processos d) MatchState.inicial := rfl
  rw [hred]
  refine ⟨foldPassoCompleto processos d _ _ A hA hA2,
    foldPassoCompleto processos d _ _ B hB hB2, ?_⟩
  have hmem : d ∈ (d.get_numeros_processos.foldl
      (passoProcesso processos d) MatchState.inicial).downloads := by
    apply foldPassoColeta processos d _ _ A
    · exact foldPassoCompleto processos d _ _ A hA hA2
    · simp [MatchState.inicial]
  have hnodup : (d.get_numeros_processos.foldl
      (passoProcesso processos d) MatchState.inicial).downloads.Nodup :=
    (processarDownloadInv processos MatchState.inicial d
      ⟨List.nodup_nil, List.nodup_nil⟩).2
  exact List.count_eq_one_of_mem hnodup hmem

/-- Closed instance of the fan-in theorem: the pickup item `itemAB`
covers the case numbers A-1 and B-2, and one poll cycle claims both
while collecting the item exactly once. -/
theorem C5_fan_in_witness :
    "A-1" ∈ (processarDisponiveis ["A-1", "B-2"] MatchState.inicial [itemAB]).encontrados ∧
    "B-2" ∈ (processarDisponiveis ["A-1", "B-2"] MatchState.inicial [itemAB]).encontrados ∧
    (processarDisponiveis ["A-1", "B-2"] MatchState.inicial [itemAB]).downloads.count itemAB = 1 :=
  C5_fan_in itemAB "A-1" "B-2" ["A-1", "B-2"] (by decide)
    (by decide) (by decide) (by decide) (by decide)

/-- C4: the pickup-area wait first sleeps the fixed 15-second initial
wait (every recorded poll time is at least 15), then repeatedly lists
and matches; with a positive poll interval it returns only when every
awaited identifier was matched, when the time budget elapsed, or — in
the diagnostic variant — when the stagnation clock reached its window
with something already found; and in every case the returned state
carries exactly the items matched so far (every returned item claimed
an awaited identifier). -/
theorem C4_espera_tres_saidas (listar : Nat → List DownloadDisponivel)
    (processos : List String) (tempo_maximo intervalo : Nat)
    (hint : 1 ≤ intervalo) :
    (processos.length ≤ (DownloadService.aguardar_downloads listar processos
        tempo_maximo intervalo).estado.encontrados.length ∨
      tempo_maximo ≤ (DownloadService.aguardar_downloads listar processos
        tempo_maximo intervalo).decorrido) ∧
    (∀ t ∈ (DownloadService.aguardar_downloads listar processos
        tempo_maximo intervalo).listagens, 15 ≤ t) ∧
    DownloadsJustificados processos (DownloadService.aguardar_downloads listar processos
        tempo_maximo intervalo).estado ∧
    (processos.length ≤ (PjeDiagnostico.aguardar_downloads listar processos
        tempo_maximo intervalo).estado.encontrados.length ∨
      tempo_maximo ≤ (PjeDiagnostico.aguardar_downloads listar processos
        tempo_maximo intervalo).decorrido ∨
      (90 ≤ (PjeDiagnostico.aguardar_downloads listar processos
          tempo_maximo intervalo).semNovos ∧
        (PjeDiagnostico.aguardar_downloads listar processos
          tempo_maximo intervalo).estado.encontrados ≠ [])) ∧
    (∀ t ∈ (PjeDiagnostico.aguardar_downloads listar processos
        tempo_maximo intervalo).listagens, 15 ≤ t) ∧
    DownloadsJustificados processos (PjeDiagnostico.aguardar_downloads listar processos
        tempo_maximo intervalo).estado := by
  have hj0 : DownloadsJustificados processos MatchState.inicial := by
    intro x hx
    simp [MatchState.inicial] at hx
  refine ⟨?_, ?_, ?_, ?_, ?_, ?_⟩
  · exact aguardarAuxSaida listar processos tempo_maximo intervalo hint
      (tempo_maximo + 1) 0 0 MatchState.inicial [] (by omega)
  · exact aguardarAuxListagens listar processos tempo_maximo intervalo
      (tempo_maximo + 1) 0 0 MatchState.inicial [] (by intro t ht; cases ht)
  · exact aguardarAuxPreserva listar processos tempo_maximo intervalo
      (DownloadsJustificados processos)
      (fun st ds hst => processarDisponiveisJustifica processos st ds hst)
      (tempo_maximo + 1) 0 0 MatchState.inicial [] hj0
  · exact aguardarDiagAuxSaida listar processos tempo_maximo intervalo hint
      (tempo_maximo + 1) 0 0 0 MatchState.inicial [] (by omega)
  · exact aguardarDiagAuxListagens listar processos tempo_maximo intervalo
      (tempo_maximo + 1) 0 0 0 MatchState.inicial [] (by intro t ht; cases ht)
  · exact aguardarDiagAuxPreserva listar processos tempo_maximo intervalo
      (DownloadsJustificados processos)
      (fun st ds hst => processarDisponiveisJustifica processos st ds hst)
      (tempo_maximo + 1) 0 0 0 MatchState.inicial [] hj0

/-- Closed instance of the wait-loop theorem at the default tuning
(300-second budget, 15-second interval) on an empty pickup area,
discharging the positive-interval hypothesis at 15. -/
theorem C4_espera_tres_saidas_witness :
    1 ≤ 15 ∧
    ((["P-1"].length ≤ (DownloadService.aguardar_downloads listarVazio ["P-1"]
        300 15).estado.encontrados.length ∨
      300 ≤ (DownloadService.aguardar_downloads listarVazio ["P-1"] 300 15).decorrido) ∧
    (∀ t ∈ (DownloadService.aguardar_downloads listarVazio ["P-1"] 300 15).listagens, 15 ≤ t) ∧
    DownloadsJustificados ["P-1"]
      (DownloadService.aguardar_downloads listarVazio ["P-1"] 300 15).estado ∧
    (["P-1"].length ≤ (PjeDiagnostico.aguardar_downloads listarVazio ["P-1"]
        300 15).estado.encontrados.length ∨
      300 ≤ (PjeDiagnostico.aguardar_downloads listarVazio ["P-1"] 300 15).decorrido ∨
      (90 ≤ (PjeDiagnostico.aguardar_downloads listarVazio ["P-1"] 300 15).semNovos ∧
        (PjeDiagnostico.aguardar_downloads listarVazio ["P-1"] 300 15).estado.encontrados ≠ [])) ∧
    (∀ t ∈ (PjeDiagnostico.aguardar_downloads listarVazio ["P-1"] 300 15).listagens, 15 ≤ t) ∧
    DownloadsJustificados ["P-1"]
      (PjeDiagnostico.aguardar_downloads listarVazio ["P-1"] 300 15).estado) :=
  ⟨by decide, C4_espera_tres_saidas listarVazio ["P-1"] 300 15 (by decide)⟩

/-- C2: for every HTTP-200 response body the classification yields
exactly one of the three outcomes; it is Rejected precisely when
neither the direct-generation phrasing nor the pickup-area phrasing
occurs in the lowered body, and a Direct outcome implies the
direct-generation phrasing, an extracted location and a destination
directory were all present. -/
theorem C2_classificacao_resposta (texto : String) (url : Option String)
    (temDiretorio : Bool) (baixar : String → Option String) :
    (classificarResposta texto url temDiretorio baixar = TipoResposta.rejeitado ↔
      (downloadDiretoResp texto = false ∧ areaDownloadResp texto = false)) ∧
    ((∃ a, classificarResposta texto url temDiretorio baixar = TipoResposta.direto a) →
      downloadDiretoResp texto = true ∧ url.isSome = true ∧ temDiretorio = true) ∧
    (classificarResposta texto url temDiretorio baixar = TipoResposta.rejeitado ∨
      classificarResposta texto url temDiretorio baixar = TipoResposta.areaDownload ∨
      ∃ a, classificarResposta texto url temDiretorio baixar = TipoResposta.direto a) := by
  cases hdd : downloadDiretoResp texto
  · cases had : areaDownloadResp texto
    · simp [classificarResposta, hdd, had]
    · simp [classificarResposta, hdd, had]
  · cases url with
    | none => simp [classificarResposta, hdd]
    | some u =>
      cases temDiretorio
      · simp [classificarResposta, hdd]
      · cases hb : baixar u with
        | none => simp [classificarResposta, hdd, hb]
        | some arq => simp [classificarResposta, hdd, hb]

/-- Closed instance of the classification theorem: a body carrying the
direct-generation phrasing, with a location and a directory, comes out
Direct. -/
theorem C2_classificacao_resposta_witness :
    downloadDiretoResp "O arquivo está sendo gerado, aguarde" = true ∧
    (some "u").isSome = true ∧ true = true :=
  (C2_classificacao_resposta "O arquivo está sendo gerado, aguarde"
      (some "u") true baixaSempre).2.1
    ⟨"arquivo.pdf", by decide⟩

/-- C3: every failing step of one submission — no access key, case
page closed, ViewState missing, download button missing, non-200
status, or an exception during the post — appends exactly one
diagnostic entry carrying that stage name with the failure flag, and
the call returns the failure result instead of raising. -/
theorem C3_falha_diagnosticada (env : EnvSolicitar) (idp : Int) (numero : String)
    (ca html vs botao : String) (status : Nat) (texto e : String) :
    (env.gerarChave = none →
      (DownloadService.solicitar_download env idp numero).1 = false ∧
      (DownloadService.solicitar_download env idp numero).2.countP
        (fun dg => dg.etapa == "chave_acesso" && !dg.sucesso) = 1) ∧
    (env.gerarChave = some ca → env.abrirProcesso ca = none →
      (DownloadService.solicitar_download env idp numero).1 = false ∧
      (DownloadService.solicitar_download env idp numero).2.countP
        (fun dg => dg.etapa == "abrir_processo" && !dg.sucesso) = 1) ∧
    (env.gerarChave = some ca → env.abrirProcesso ca = some html →
      env.extrairViewstate html = none →
      (DownloadService.solicitar_download env idp numero).1 = false ∧
      (DownloadService.solicitar_download env idp numero).2.countP
        (fun dg => dg.etapa == "viewstate" && !dg.sucesso) = 1) ∧
    (env.gerarChave = some ca → env.abrirProcesso ca = some html →
      env.extrairViewstate html = some vs → env.identificarBotao html = none →
      (DownloadService.solicitar_download env idp numero).1 = false ∧
      (DownloadService.solicitar_download env idp numero).2.countP
        (fun dg => dg.etapa == "botao" && !dg.sucesso) = 1) ∧
    (env.gerarChave = some ca → env.abrirProcesso ca = some html →
      env.extrairViewstate html = some vs → env.identificarBotao html = some botao →
      env.postar = .error e →
      (DownloadService.solicitar_download env idp numero).1 = false ∧
      (DownloadService.solicitar_download env idp numero).2.countP
        (fun dg => dg.etapa == "solicitar" && !dg.sucesso) = 1) ∧
    (env.gerarChave = some ca → env.abrirProcesso ca = some html →
      env.extrairViewstate html = some vs → env.identificarBotao html = some botao →
      env.postar = .ok (status, texto) → status ≠ 200 →
      (DownloadService.solicitar_download env idp numero).1 = false ∧
      (DownloadService.solicitar_download env idp numero).2.countP
        (fun dg => dg.etapa == "solicitar" && !dg.sucesso) = 1) := by
  refine ⟨?_, ?_, ?_, ?_, ?_, ?_⟩
  · intro h1
    simp [DownloadService.solicitar_download, h1, diag]
  · intro h1 h2
    simp [DownloadService.solicitar_download, h1, h2, diag]
  · intro h1 h2 h3
    simp [DownloadService.solicitar_download, h1, h2, h3, diag]
  · intro h1 h2 h3 h4
    simp [DownloadService.solicitar_download, h1, h2, h3, h4, diag]
  · intro h1 h2 h3 h4 h5
    simp [DownloadService.solicitar_download, h1, h2, h3, h4, h5, diag]
  · intro h1 h2 h3 h4 h5 h6
    simp [DownloadService.solicitar_download, h1, h2, h3, h4, h5, h6, diag]

/-- Closed instance of the failure-diagnostics theorem across the six
failing environments, each discharging its step hypotheses on a
concrete oracle bundle. -/
theorem C3_falha_diagnosticada_witness :
    ((DownloadService.solicitar_download envSemChave 1 "P").1 = false ∧
      (DownloadService.solicitar_download envSemChave 1 "P").2.countP
        (fun dg => dg.etapa == "chave_acesso" && !dg.sucesso) = 1) ∧
    ((DownloadService.solicitar_download envSemPagina 1 "P").1 = false ∧
      (DownloadService.solicitar_download envSemPagina 1 "P").2.countP
        (fun dg => dg.etapa == "abrir_processo" && !dg.sucesso) = 1) ∧
    ((DownloadService.solicitar_download envSemViewstate 1 "P").1 = false ∧
      (DownloadService.solicitar_download envSemViewstate 1 "P").2.countP
        (fun dg => dg.etapa == "viewstate" && !dg.sucesso) = 1) ∧
    ((DownloadService.solicitar_download envSemBotao 1 "P").1 = false ∧
      (DownloadService.solicitar_download envSemBotao 1 "P").2.countP
        (fun dg => dg.etapa == "botao" && !dg.sucesso) = 1) ∧
    ((DownloadService.solicitar_download envPostErro 1 "P").1 = false ∧
      (DownloadService.solicitar_download envPostErro 1 "P").2.countP
        (fun dg => dg.etapa == "solicitar" && !dg.sucesso) = 1) ∧
    ((DownloadService.solicitar_download envPost500 1 "P").1 = false ∧
      (DownloadService.solicitar_download envPost500 1 "P").2.countP
        (fun dg => dg.etapa == "solicitar" && !dg.sucesso) = 1) :=
  ⟨(C3_falha_diagnosticada envSemChave 1 "P" "" "" "" "" 0 "" "").1 rfl,
   (C3_falha_diagnosticada envSemPagina 1 "P" "ca" "" "" "" 0 "" "").2.1 rfl rfl,
   (C3_falha_diagnosticada envSemViewstate 1 "P" "ca" "html" "" "" 0 "" "").2.2.1 rfl rfl rfl,
   (C3_falha_diagnosticada envSemBotao 1 "P" "ca" "html" "vs" "" 0 "" "").2.2.2.1 rfl rfl rfl rfl,
   (C3_falha_diagnosticada envPostErro 1 "P" "ca" "html" "vs" "navbar:j_id280" 0 ""
     "timeout").2.2.2.2.1 rfl rfl rfl rfl rfl,
   (C3_falha_diagnosticada envPost500 1 "P" "ca" "html" "vs" "navbar:j_id280" 500
     "erro interno" "").2.2.2.2.2 rfl rfl rfl rfl rfl (by decide)⟩

/-- C7: `is_valid` holds exactly when a structurally readable session
record exists whose age is strictly below the limit (stated in
seconds: age < max_age_hours * 3600, the same comparison the code
performs on hours after dividing by 3600); with no saved record it is
false. The model takes no portal oracle at all, so the check judges
nothing besides the stored timestamp and the clock. -/
theorem C7_is_valid_por_idade (a : ArquivosSessao) (agora max_age_hours : ℚ) :
    (SessionManager.is_valid a agora max_age_hours = true ↔
      ∃ ts, a.info = InfoArquivo.valido ts ∧
        agora - ts.getD 0 < max_age_hours * 3600) ∧
    SessionManager.is_valid { a with info := InfoArquivo.ausente } agora max_age_hours
      = false := by
  refine ⟨?_, by simp [SessionManager.is_valid]⟩
  cases h : a.info with
  | ausente => simp [SessionManager.is_valid, h]
  | corrompido => simp [SessionManager.is_valid, h]
  | valido ts =>
    simp only [SessionManager.is_valid, h, decide_eq_true_eq, InfoArquivo.valido.injEq]
    constructor
    · intro hlt
      exact ⟨ts, rfl, (div_lt_iff₀ (by norm_num)).mp hlt⟩
    · rintro ⟨ts2, rfl, hlt⟩
      exact (div_lt_iff₀ (by norm_num)).mpr hlt

/-- C10: the session-store operations are total booleans — `save`
succeeds exactly when both durable writes do, `load` succeeds exactly
when the cookies file exists and unpickles, and a missing or
unreadable file makes `load` and `is_valid` return false instead of
raising. -/
theorem C10_operacoes_totais (a : ArquivosSessao) (agora max_age_hours : ℚ) :
    (SessionManager.save a = true ↔
      a.escritaCookiesOk = true ∧ a.escritaInfoOk = true) ∧
    (SessionManager.load a = true ↔ a.cookies = some (Except.ok ())) ∧
    (a.cookies = none → SessionManager.load a = false) ∧
    (a.cookies = some (Except.error ()) → SessionManager.load a = false) ∧
    (a.info = InfoArquivo.ausente →
      SessionManager.is_valid a agora max_age_hours = false) ∧
    (a.info = InfoArquivo.corrompido →
      SessionManager.is_valid a agora max_age_hours = false) := by
  refine ⟨?_, ?_, ?_, ?_, ?_, ?_⟩
  · simp [SessionManager.save]
  · rcases hc : a.cookies with _ | e
    · simp [SessionManager.load, hc]
    · rcases e with e | v
      · simp [SessionManager.load, hc]
      · simp [SessionManager.load, hc]
  · intro hc; simp [SessionManager.load, hc]
  · intro hc; simp [SessionManager.load, hc]
  · intro hi; simp [SessionManager.is_valid, hi]
  · intro hi; simp [SessionManager.is_valid, hi]

/-- Closed instance of the totality theorem on a missing and on a
corrupt session directory. -/
theorem C10_operacoes_totais_witness :
    SessionManager.load arquivosAusentes = false ∧
    SessionManager.is_valid arquivosAusentes 0 8 = false ∧
    SessionManager.load arquivosCorrompidos = false ∧
    SessionManager.is_valid arquivosCorrompidos 0 8 = false :=
  ⟨(C10_operacoes_totais arquivosAusentes 0 8).2.2.1 rfl,
   (C10_operacoes_totais arquivosAusentes 0 8).2.2.2.2.1 rfl,
   (C10_operacoes_totais arquivosCorrompidos 0 8).2.2.2.1 rfl,
   (C10_operacoes_totais arquivosCorrompidos 0 8).2.2.2.2.2 rfl⟩

/-- C6 (counterexample): with a valid persisted session that loads and
whose probe succeeds, `login` without force still fails when the
process has no credentials — the credential check precedes any session
reuse — so the claim as stated does not hold without a credentials
assumption. -/
theorem C6_counterexample :
    envSessaoSalva.sessaoValida = true ∧
    envSessaoSalva.loadOk = true ∧
    envSessaoSalva.probeRestaurada = true ∧
    (AuthService.login envSessaoSalva "" "senha" false).1 = false ∧
    (AuthService.ensure_logged_in envSessaoSalva "" "senha").1 = false := by
  decide

/-- C6 (amended): given non-empty credentials, a persisted session
younger than the age limit that loads, and a probe that succeeds after
the load, `login` without force and `ensure_logged_in` both return
success while performing no login-page fetch and no credential
submission. -/
theorem C6_reuso_sessao (env : EnvAuth) (u p : String)
    (hu : u ≠ "") (hp : p ≠ "")
    (hv : env.sessaoValida = true) (hl : env.loadOk = true)
    (hr : env.probeRestaurada = true) :
    (AuthService.login env u p false).1 = true ∧
    (AuthService.login env u p false).2.count EventoAuth.fetchLoginPage = 0 ∧
    (AuthService.login env u p false).2.count EventoAuth.postCredenciais = 0 ∧
    (AuthService.ensure_logged_in env u p).1 = true ∧
    (AuthService.ensure_logged_in env u p).2.count EventoAuth.fetchLoginPage = 0 ∧
    (AuthService.ensure_logged_in env u p).2.count EventoAuth.postCredenciais = 0 := by
  cases hpa : env.probeAtual
  · simp [AuthService.login, AuthService.ensure_logged_in,
      AuthService.restaurar_sessao, hu, hp, hv, hl, hr, hpa]
  · simp [AuthService.login, AuthService.ensure_logged_in,
      AuthService.restaurar_sessao, hu, hp, hv, hl, hr, hpa]

/-- Closed instance of the amended session-reuse theorem on the
environment with a good persisted session and concrete credentials. -/
theorem C6_reuso_sessao_witness :
    (AuthService.login envSessaoSalva "11122233344" "senha" false).1 = true ∧
    (AuthService.login envSessaoSalva "11122233344" "senha" false).2.count
      EventoAuth.fetchLoginPage = 0 ∧
    (AuthService.login envSessaoSalva "11122233344" "senha" false).2.count
      EventoAuth.postCredenciais = 0 ∧
    (AuthService.ensure_logged_in envSessaoSalva "11122233344" "senha").1 = true ∧
    (AuthService.ensure_logged_in envSessaoSalva "11122233344" "senha").2.count
      EventoAuth.fetchLoginPage = 0 ∧
    (AuthService.ensure_logged_in envSessaoSalva "11122233344" "senha").2.count
      EventoAuth.postCredenciais = 0 :=
  C6_reuso_sessao envSessaoSalva "11122233344" "senha"
    (by decide) (by decide) rfl rfl rfl

/-- Once the containment-tier fold holds a candidate it never drops
it. -/
theorem foldMelhorContemSome :
    ∀ (l : List (Nat × Nat × ℚ)) (b : Nat × Nat × ℚ),
      ∃ d, l.foldl passoMelhorContem (some b) = some d := by
  intro l
  induction l with
  | nil => intro b; exact ⟨b, rfl⟩
  | cons c l ih =>
    intro b
    rw [List.foldl_cons]
    by_cases h : c.2.1 < b.2.1 ∨ (c.2.1 = b.2.1 ∧ b.2.2 < c.2.2)
    · rw [show passoMelhorContem (some b) c = some c from by
        simp [passoMelhorContem, h]]
      exact ih c
    · rw [show passoMelhorContem (some b) c = some b from by
        simp [passoMelhorContem, h]]
      exact ih b

/-- The containment tier comes up empty exactly on an empty candidate
list. -/
theorem melhorContemNoneIff (cands : List (Nat × Nat × ℚ)) :
    melhorContem cands = none ↔ cands = [] := by
  cases cands with
  | nil => simp [melhorContem]
  | cons c l =>
    simp only [melhorContem, List.foldl_cons]
    rw [show passoMelhorContem none c = some c from rfl]
    obtain ⟨d, hd⟩ := foldMelhorContemSome l c
    rw [hd]
    simp

/-- Once the similarity-tier fold holds a candidate it never drops
it. -/
theorem foldMelhorSimilarSome :
    ∀ (l : List (Nat × ℚ)) (b : Nat × ℚ),
      ∃ d, l.foldl passoMelhorSimilar (some b) = some d := by
  intro l
  induction l with
  | nil => intro b; exact ⟨b, rfl⟩
  | cons c l ih =>
    intro b
    rw [List.foldl_cons]
    by_cases h : b.2 < c.2
    · rw [show passoMelhorSimilar (some b) c = some c from by
        simp [passoMelhorSimilar, h]]
      exact ih c
    · rw [show passoMelhorSimilar (some b) c = some b from by
        simp [passoMelhorSimilar, h]]
      exact ih b

/-- The similarity tier comes up empty exactly on an empty candidate
list. -/
theorem melhorSimilarNoneIff (cands : List (Nat × ℚ)) :
    melhorSimilar cands = none ↔ cands = [] := by
  cases cands with
  | nil => simp [melhorSimilar]
  | cons c l =>
    simp only [melhorSimilar, List.foldl_cons]
    rw [show passoMelhorSimilar none c = some c from rfl]
    obtain ⟨d, hd⟩ := foldMelhorSimilarSome l c
    rw [hd]
    simp

/-- A property of the values holds on every numbered entry exactly
when it holds on every element. -/
theorem forallEnumFrom {α : Type _} (P : α → Prop) :
    ∀ (l : List α) (n : Nat),
      (∀ par ∈ l.enumFrom n, P par.2) ↔ (∀ x ∈ l, P x) := by
  intro l
  induction l with
  | nil => intro n; simp
  | cons a l ih =>
    intro n
    simp only [List.enumFrom, List.mem_cons, forall_eq_or_imp]
    rw [show (∀ par ∈ l.enumFrom (n + 1), P par.2) ↔ (∀ x ∈ l, P x) from ih (n + 1)]

/-- Specialization of `forallEnumFrom` to `List.enum`. -/
theorem forallEnum {α : Type _} (P : α → Prop) (l : List α) :
    (∀ par ∈ l.enum, P par.2) ↔ (∀ x ∈ l, P x) :=
  forallEnumFrom P l 0

/-- C8 (counterexample): the query a against the candidate list
[abcdef] succeeds through the containment tier although no candidate
clears the 0.6 threshold — the SequenceMatcher ratio of the one
probed pair (a, abcdef) is 2/7, the exact value the instantiated
similarity oracle returns there — so failing exactly when no
candidate clears the similarity threshold is not how the matcher
behaves. -/
theorem C8_counterexample :
    ¬ (buscar_texto_similar matcherExemplo "a" ["abcdef"] (3 / 5) = none ↔
      ∀ item ∈ ["abcdef"], matcherExemplo.sim "a" item < 3 / 5) := by
  intro hiff
  have h : buscar_texto_similar matcherExemplo "a" ["abcdef"] (3 / 5) = some 0 := rfl
  have h2 : ∀ item ∈ ["abcdef"], matcherExemplo.sim "a" item < 3 / 5 := by
    intro item hit
    rw [List.mem_singleton] at hit
    subst hit
    show (if ("a" : String) = "abcdef" then (1 : ℚ) else 2 / 7) < 3 / 5
    rw [if_neg (by decide)]
    norm_num
  exact absurd (hiff.mpr h2) (by simp [h])

/-- C8 (amended): name resolution exists in two forms. The
endpoint-script matcher tries exact match first (first exact hit
wins), then containment of the query in a candidate, then containment
of a candidate in the query, then similarity at or above the
threshold, and it fails exactly when every candidate fails all four
tiers — so failure still implies that no candidate clears the
similarity threshold, but a containment match can succeed below it.
The package selector `ProfileService.selecionar_por_nome` instead
resolves solely by containment of the lowered query in a lowered
candidate, first match wins, and fails exactly when no candidate
contains the query — no exact tier and no similarity fallback at
all. -/
theorem C8_selecao_contexto (m : Matcher) (busca : String) (lista : List String)
    (threshold : ℚ) (perfis : List String) (nome : String) :
    (buscar_texto_similar m busca lista threshold = none ↔
      ∀ item ∈ lista, exatoB m busca item = false ∧ contemB m busca item = false ∧
        contemInvB m busca item = false ∧ m.sim busca item < threshold) ∧
    (∀ i item, lista.enum.find? (fun par => exatoB m busca par.2) = some (i, item) →
      buscar_texto_similar m busca lista threshold = some i) ∧
    (ProfileService.selecionar_por_nome perfis nome = none ↔
      ∀ item ∈ perfis, contemSub (minusculas nome) (minusculas item) = false) ∧
    (∀ i item, perfis.enum.find?
        (fun par => contemSub (minusculas nome) (minusculas par.2)) = some (i, item) →
      ProfileService.selecionar_por_nome perfis nome = some i) := by
  refine ⟨?_, ?_, ?_, ?_⟩
  · cases he : lista.enum.find? (fun par => exatoB m busca par.2) with
    | some par =>
      have hL : buscar_texto_similar m busca lista threshold = some par.1 := by
        unfold buscar_texto_similar
        rw [he]
      have hpe : exatoB m busca par.2 = true := by simpa using List.find?_some he
      have hmem : par.2 ∈ lista :=
        List.snd_mem_of_mem_enum (List.mem_of_find?_eq_some he)
      refine iff_of_false (by simp [hL]) ?_
      intro hall
      have h2 := (hall par.2 hmem).1
      simp [h2] at hpe
    | none =>
      have hexact : ∀ item ∈ lista, exatoB m busca item = false := by
        refine (forallEnum (fun x => exatoB m busca x = false) lista).mp ?_
        intro par hp
        simpa using List.find?_eq_none.mp he par hp
      cases hc : melhorContem ((lista.enum.filter (fun par => contemB m busca par.2)).map
          (fun par => (par.1, difTam busca par.2, m.sim busca par.2))) with
      | some i =>
        have hL : buscar_texto_similar m busca lista threshold = some i := by
          simp only [buscar_texto_similar, he, hc]
        have hne : (lista.enum.filter (fun par => contemB m busca par.2)) ≠ [] := by
          intro h0
          rw [show ((lista.enum.filter (fun par => contemB m busca par.2)).map
              (fun par => (par.1, difTam busca par.2, m.sim busca par.2))) = [] from by
            rw [h0]; rfl] at hc
          simp [melhorContem] at hc
        obtain ⟨par, hpar⟩ := List.exists_mem_of_ne_nil _ hne
        obtain ⟨hparenum, hparpred⟩ := List.mem_filter.mp hpar
        refine iff_of_false (by simp [hL]) ?_
        intro hall
        have h2 := (hall par.2 (List.snd_mem_of_mem_enum hparenum)).2.1
        simp [h2] at hparpred
      | none =>
        have hcontem : ∀ item ∈ lista, contemB m busca item = false := by
          refine (forallEnum (fun x => contemB m busca x = false) lista).mp ?_
          intro par hp
          have hfil := (List.map_eq_nil_iff.mp ((melhorContemNoneIff _).mp hc))
          have := List.filter_eq_nil_iff.mp hfil par hp
          simpa using this
        cases hc2 : melhorContem ((lista.enum.filter (fun par => contemInvB m busca par.2)).map
            (fun par => (par.1, difTam busca par.2, m.sim busca par.2))) with
        | some i =>
          have hL : buscar_texto_similar m busca lista threshold = some i := by
            simp only [buscar_texto_similar, he, hc, hc2]
          have hne : (lista.enum.filter (fun par => contemInvB m busca par.2)) ≠ [] := by
            intro h0
            rw [show ((lista.enum.filter (fun par => contemInvB m busca par.2)).map
                (fun par => (par.1, difTam busca par.2, m.sim busca par.2))) = [] from by
              rw [h0]; rfl] at hc2
            simp [melhorContem] at hc2
          obtain ⟨par, hpar⟩ := List.exists_mem_of_ne_nil _ hne
          obtain ⟨hparenum, hparpred⟩ := List.mem_filter.mp hpar
          refine iff_of_false (by simp [hL]) ?_
          intro hall
          have h2 := (hall par.2 (List.snd_mem_of_mem_enum hparenum)).2.2.1
          simp [h2] at hparpred
        | none =>
          have hinv : ∀ item ∈ lista, contemInvB m busca item = false := by
            refine (forallEnum (fun x => contemInvB m busca x = false) lista).mp ?_
            intro par hp
            have hfil := (List.map_eq_nil_iff.mp ((melhorContemNoneIff _).mp hc2))
            have := List.filter_eq_nil_iff.mp hfil par hp
            simpa using this
          have hL : buscar_texto_similar m busca lista threshold =
              melhorSimilar ((lista.enum.filter
                (fun par => threshold ≤ m.sim busca par.2)).map
                (fun par => (par.1, m.sim busca par.2))) := by
            simp only [buscar_texto_similar, he, hc, hc2]
          rw [hL, melhorSimilarNoneIff, List.map_eq_nil_iff, List.filter_eq_nil_iff]
          constructor
          · intro h0 item hit
            refine ⟨hexact item hit, hcontem item hit, hinv item hit, ?_⟩
            have := (forallEnum (fun x => ¬ (threshold ≤ m.sim busca x)) lista).mp
              (by intro par hp; simpa using h0 par hp) item hit
            exact lt_of_not_le this
          · intro hall par hp
            have := (hall par.2 (List.snd_mem_of_mem_enum hp)).2.2.2
            simp only [decide_eq_true_eq]
            exact not_le_of_lt this
  · intro i item hfind
    unfold buscar_texto_similar
    rw [hfind]
  · cases hf : perfis.enum.find?
        (fun par => contemSub (minusculas nome) (minusculas par.2)) with
    | some par =>
      refine iff_of_false (by simp [ProfileService.selecionar_por_nome, hf]) ?_
      intro hall
      have hp := List.find?_some hf
      have hm : par.2 ∈ perfis :=
        List.snd_mem_of_mem_enum (List.mem_of_find?_eq_some hf)
      simp [hall par.2 hm] at hp
    | none =>
      refine iff_of_true (by simp [ProfileService.selecionar_por_nome, hf]) ?_
      refine (forallEnum
        (fun x => contemSub (minusculas nome) (minusculas x) = false) perfis).mp ?_
      intro par hp
      simpa using List.find?_eq_none.mp hf par hp
  · intro i item hfind
    unfold ProfileService.selecionar_por_nome
    rw [hfind]
    rfl

/-- Closed instance of the amended selector theorem: an exact match at
index zero wins in the endpoint-script matcher, and the package
selector resolves a lowered-containment query to the first containing
profile. -/
theorem C8_selecao_contexto_witness :
    buscar_texto_similar matcherExemplo "x" ["x"] (3 / 5) = some 0 ∧
    ProfileService.selecionar_por_nome ["Vara Criminal"] "criminal" = some 0 :=
  ⟨(C8_selecao_contexto matcherExemplo "x" ["x"] (3 / 5)
      ["Vara Criminal"] "criminal").2.1 0 "x" (by decide),
   (C8_selecao_contexto matcherExemplo "x" ["x"] (3 / 5)
      ["Vara Criminal"] "criminal").2.2.2 0 "Vara Criminal" (by decide)⟩

/-- Counting a predicate and its complement covers the whole list. -/
theorem countPComplemento {α : Type _} (p : α → Bool) :
    ∀ l : List α, l.countP (fun x => !(p x)) + l.countP p = l.length := by
  intro l
  induction l with
  | nil => simp
  | cons a l ih =>
    by_cases h : p a = true <;> simp [List.countP_cons, h] <;> omega

/-- The submission loop accumulates in `falhas` exactly the case
numbers whose submission failed, in order. -/
theorem loteFalhas (env : EnvTarefa) :
    ∀ (l : List String) (st : EstadoLote),
      (l.foldl (passoLote env) st).falhas
        = st.falhas ++ l.filter (fun p => (env.solicitar p).ehFalha) := by
  intro l
  induction l with
  | nil => intro st; simp
  | cons q l ih =>
    intro st
    rw [List.foldl_cons, ih, List.filter_cons]
    cases hq : env.solicitar q with
    | falha => simp [passoLote, hq, ResultadoSolicitacao.ehFalha]
    | direto arquivo => simp [passoLote, hq, ResultadoSolicitacao.ehFalha]
    | area => simp [passoLote, hq, ResultadoSolicitacao.ehFalha]

/-- The submission loop counts one success per non-failing number. -/
theorem loteSucesso (env : EnvTarefa) :
    ∀ (l : List String) (st : EstadoLote),
      (l.foldl (passoLote env) st).sucesso
        = st.sucesso + l.countP (fun p => !(env.solicitar p).ehFalha) := by
  intro l
  induction l with
  | nil => intro st; simp
  | cons q l ih =>
    intro st
    rw [List.foldl_cons, ih, List.countP_cons]
    cases hq : env.solicitar q with
    | falha => simp [passoLote, hq, ResultadoSolicitacao.ehFalha]
    | direto arquivo => simp [passoLote, hq, ResultadoSolicitacao.ehFalha]; omega
    | area => simp [passoLote, hq, ResultadoSolicitacao.ehFalha]; omega

/-- The submission loop counts one failure per failing number. -/
theorem loteFalhaConta (env : EnvTarefa) :
    ∀ (l : List String) (st : EstadoLote),
      (l.foldl (passoLote env) st).falha
        = st.falha + l.countP (fun p => (env.solicitar p).ehFalha) := by
  intro l
  induction l with
  | nil => intro st; simp
  | cons q l ih =>
    intro st
    rw [List.foldl_cons, ih, List.countP_cons]
    cases hq : env.solicitar q with
    | falha => simp [passoLote, hq, ResultadoSolicitacao.ehFalha]; omega
    | direto arquivo => simp [passoLote, hq, ResultadoSolicitacao.ehFalha]
    | area => simp [passoLote, hq, ResultadoSolicitacao.ehFalha]

/-- C9 (counterexample): a batch of one case record whose submission
is deferred and never matched in the pickup area produces a report in
which that identifier appears nowhere — not in the failure list and in
no recorded file path — although its submission was counted a success,
so the report does not enumerate every submitted identifier with a
terminal outcome. -/
theorem C9_counterexample :
    (PJEAutomacao.processar_tarefa envTarefaSemMatch ["0001"] true).solicitacoes_sucesso
      = 1 ∧
    apareceNoRelatorio
      (PJEAutomacao.processar_tarefa envTarefaSemMatch ["0001"] true) "0001" = false := by
  decide

/-- C9 (amended): after a completed batch run, the failure list of the
report enumerates exactly the submitted identifiers whose submission
failed, in order and (for a duplicate-free input) without repetition,
and every submitted identifier is counted exactly once between
solicitacoes_sucesso and solicitacoes_falha; identifiers whose
submission succeeded are not individually enumerated — a direct
download contributes only a file path and a deferred identifier that
never matches leaves no per-identifier entry at all. -/
theorem C9_relatorio (env : EnvTarefa) (processos : List String)
    (aguardarFlag : Bool) :
    (PJEAutomacao.processar_tarefa env processos aguardarFlag).falhas
      = processos.filter (fun p => (env.solicitar p).ehFalha) ∧
    (PJEAutomacao.processar_tarefa env processos aguardarFlag).solicitacoes_sucesso
      + (PJEAutomacao.processar_tarefa env processos aguardarFlag).solicitacoes_falha
      = processos.length ∧
    (PJEAutomacao.processar_tarefa env processos aguardarFlag).processos_encontrados
      = processos.length ∧
    (processos.Nodup →
      (PJEAutomacao.processar_tarefa env processos aguardarFlag).falhas.Nodup) := by
  have hfal : (PJEAutomacao.processar_tarefa env processos aguardarFlag).falhas
      = processos.filter (fun p => (env.solicitar p).ehFalha) := by
    simp only [PJEAutomacao.processar_tarefa]
    rw [loteFalhas env processos ⟨0, 0, 0, [], [], []⟩]
    rfl
  refine ⟨hfal, ?_, ?_, ?_⟩
  · simp only [PJEAutomacao.processar_tarefa]
    rw [loteSucesso env processos ⟨0, 0, 0, [], [], []⟩,
      loteFalhaConta env processos ⟨0, 0, 0, [], [], []⟩]
    simpa using countPComplemento (fun p => (env.solicitar p).ehFalha) processos
  · simp [PJEAutomacao.processar_tarefa]
  · intro hnd
    rw [hfal]
    exact hnd.filter _

/-- Closed instance of the amended report theorem on a two-record
batch with one failing submission, discharging the duplicate-free
hypothesis. -/
theorem C9_relatorio_witness :
    (PJEAutomacao.processar_tarefa envTarefaSemMatch ["0001", "0002"] true).falhas
      = ["0001", "0002"].filter
          (fun p => (envTarefaSemMatch.solicitar p).ehFalha) ∧
    (PJEAutomacao.processar_tarefa envTarefaSemMatch
        ["0001", "0002"] true).solicitacoes_sucesso
      + (PJEAutomacao.processar_tarefa envTarefaSemMatch
        ["0001", "0002"] true).solicitacoes_falha = ["0001", "0002"].length ∧
    (PJEAutomacao.processar_tarefa envTarefaSemMatch
        ["0001", "0002"] true).processos_encontrados = ["0001", "0002"].length ∧
    (PJEAutomacao.processar_tarefa envTarefaSemMatch ["0001", "0002"] true).falhas.Nodup := by
  obtain ⟨h1, h2, h3, h4⟩ :=
    C9_relatorio envTarefaSemMatch ["0001", "0002"] true
  exact ⟨h1, h2, h3, h4 (by decide)⟩
